import Mathlib

/-!
A shallow embedding of `src/mailblog/subscription/handler.py` (an AWS
Lambda handling mailing-list subscribe / verify / unsubscribe requests),
followed by theorems about the embedded operations.

Modelling choices, in correspondence with the source:
* The DynamoDB table keyed by `email` is a `Store := String → Option UserRecord`;
  `get_user` is `table.get_item`, `put_item` is `table.put_item` (replace by key).
* `os.urandom(16).hex()` and `datetime.datetime.now().isoformat()` are
  nondeterministic inputs; they enter the operations as explicit `freshToken`
  and `now` string parameters.
* Collaborator faults (`get_item`, `put_item`, SES `send_email` / template
  reads raising) are injected through an `Env` of failure flags.  The Python
  `except Exception` blocks convert any such fault into a 500 response, so a
  failing collaborator in the model short-circuits to the 500 branch at the
  point where the Python call would raise.  A raising `put_item` leaves the
  store unchanged; template reads happen between `put_item` and `send_email`,
  so their failure is folded into `sendFails`.
* `json.dumps({"message": m})` is `jsonBody m`, reproducing Python's default
  rendering byte for byte for these one-key objects (the messages contain no
  characters that `json.dumps` escapes).  The constant CORS `headers` dict is
  identical on every response and is omitted from the `Response` record.
* Python truthiness of strings (`if not email`) means absent-or-empty; query
  parameters and body fields are `Option String`, and emptiness is checked
  separately, mirroring `if not email or not token`.
* An absent or `null` `queryStringParameters` entry makes
  `event["queryStringParameters"]` raise `KeyError` (resp. makes `.get` raise
  `AttributeError`); both are modelled as the `none` case of
  `Option QueryParams` and fall into the `except` branch.
* An unparseable request body (`load_body` raising `ValueError`, or a
  non-dict JSON body making `body.get` raise) is the `none` case of the
  subscribe body `Option (Option String)`.
-/

namespace Mailblog

/-- A subscriber item as stored in the DynamoDB table (handler.py lines
132-138): `email` is the primary key, `token` the bearer credential,
`verified` the activation flag, plus creation/update timestamps. -/
structure UserRecord where
  email : String
  token : String
  verified : Bool
  created_at : String
  updated_at : String
deriving Repr, DecidableEq

/-- The record store: DynamoDB table keyed by email. -/
abbrev Store := String → Option UserRecord

/-- The empty table. -/
def emptyStore : Store := fun _ => none

/-- `get_user` (handler.py lines 48-62): `table.get_item(Key={"email": email})`,
returning the item or `None`. -/
def get_user (s : Store) (email : String) : Option UserRecord :=
  s email

/-- `table.put_item(Item=u)` (used by `add_user`, lines 65-79, and directly at
lines 202 and 248): replaces the item stored under the item's own key. -/
def put_item (s : Store) (u : UserRecord) : Store :=
  fun e => if e = u.email then some u else s e

/-- The `{statusCode, headers, body}` envelope; `headers` is the same constant
dict on every response and is left out. -/
structure Response where
  statusCode : Nat
  body : String
deriving Repr, DecidableEq

/-- One `send_email` call (lines 82-103), recorded as recipient and subject;
the rendered template body is opaque text. -/
structure SentEmail where
  rcpt : String
  subject : String
deriving Repr, DecidableEq

/-- Failure injection for the external collaborators: `get_item`, `put_item`
and the SES send (template reads included, they sit between put and send). -/
structure Env where
  getFails : Bool
  putFails : Bool
  sendFails : Bool
deriving Repr, DecidableEq

/-- The environment in which every collaborator succeeds. -/
def okEnv : Env := ⟨false, false, false⟩

/-- Outcome of one handler invocation: the HTTP response, the table contents
afterwards, and the emails sent. -/
structure OpResult where
  response : Response
  store : Store
  sent : List SentEmail

/-- `json.dumps({"message": m})` with Python's default separators. -/
def jsonBody (m : String) : String :=
  "\x7b\"message\": \"" ++ m ++ "\"\x7d"

/-- A response with the given status code and a one-message JSON body. -/
def resp (code : Nat) (m : String) : Response :=
  ⟨code, jsonBody m⟩

/-- The catch-all 500 response produced by every `except Exception` block. -/
def serverError : Response :=
  resp 500 "Internal server error"

/-- The `queryStringParameters` map with its two optional keys. -/
structure QueryParams where
  email : Option String
  token : Option String
deriving Repr, DecidableEq

/-- Lines 132-160 of `subscribe`: build the fresh item, `add_user` it,
render the verification templates and send the verification email.
Reached only after the body/verified guards have passed. -/
def subscribeFresh (env : Env) (s : Store) (email freshToken now : String) :
    OpResult :=
  let item : UserRecord :=
    { email := email, token := freshToken, verified := false
      created_at := now, updated_at := now }
  if env.putFails then ⟨serverError, s, []⟩
  else if env.sendFails then ⟨serverError, put_item s item, []⟩
  else ⟨resp 200 "User subscribed successfully", put_item s item,
        [⟨email, "Verify your email"⟩]⟩

/-- `subscribe` (handler.py lines 106-169).  `body` is `none` when
`load_body` raises (missing or invalid JSON body); otherwise it carries the
optional `email` field. -/
def subscribe (env : Env) (s : Store) (body : Option (Option String))
    (freshToken now : String) : OpResult :=
  match body with
  | none => ⟨serverError, s, []⟩
  | some emailField =>
    match emailField with
    | none => ⟨resp 400 "Email is required", s, []⟩
    | some email =>
      if email.isEmpty then ⟨resp 400 "Email is required", s, []⟩
      else if env.getFails then ⟨serverError, s, []⟩
      else
        match get_user s email with
        | some u =>
          if u.verified then ⟨resp 400 "User already subscribed", s, []⟩
          else subscribeFresh env s email freshToken now
        | none => subscribeFresh env s email freshToken now

/-- `verify` (handler.py lines 219-276).  `qp` is `none` when the event has
no (or a null) `queryStringParameters` entry, which makes the Python raise
and fall into the `except` block. -/
def verify (env : Env) (s : Store) (qp : Option QueryParams) (now : String) :
    OpResult :=
  match qp with
  | none => ⟨serverError, s, []⟩
  | some q =>
    match q.email, q.token with
    | some email, some token =>
      if email.isEmpty || token.isEmpty then
        ⟨resp 400 "Email and token are required", s, []⟩
      else if env.getFails then ⟨serverError, s, []⟩
      else
        match get_user s email with
        | none => ⟨resp 400 "User verification failed", s, []⟩
        | some u =>
          if u.token ≠ token then
            ⟨resp 400 "User verification failed", s, []⟩
          else
            let u2 := { u with verified := true, updated_at := now }
            if env.putFails then ⟨serverError, s, []⟩
            else if env.sendFails then ⟨serverError, put_item s u2, []⟩
            else ⟨resp 200 "User verified successfully", put_item s u2,
                  [⟨email, "Email verified"⟩]⟩
    | _, _ => ⟨resp 400 "Email and token are required", s, []⟩

/-- `unsubscribe` (handler.py lines 172-216). -/
def unsubscribe (env : Env) (s : Store) (qp : Option QueryParams)
    (now : String) : OpResult :=
  match qp with
  | none => ⟨serverError, s, []⟩
  | some q =>
    match q.email, q.token with
    | some email, some token =>
      if email.isEmpty || token.isEmpty then
        ⟨resp 400 "Email and token are required", s, []⟩
      else if env.getFails then ⟨serverError, s, []⟩
      else
        match get_user s email with
        | none => ⟨resp 400 "Failed to unsubscribe", s, []⟩
        | some u =>
          if u.token ≠ token then
            ⟨resp 400 "Failed to unsubscribe", s, []⟩
          else
            let u2 := { u with verified := false, updated_at := now }
            if env.putFails then ⟨serverError, s, []⟩
            else ⟨resp 200 "You are successfully unsubscribed",
                  put_item s u2, []⟩
    | _, _ => ⟨resp 400 "Email and token are required", s, []⟩

/-- An API Gateway event, reduced to the fields the handler reads. -/
structure Event where
  httpMethod : String
  path : String
  body : Option (Option String)
  queryStringParameters : Option QueryParams

/-- `lambda_handler` (handler.py lines 279-313): dispatch on method and
path, 405 otherwise. -/
def lambda_handler (env : Env) (s : Store) (ev : Event)
    (freshToken now : String) : OpResult :=
  if ev.httpMethod = "POST" ∧ ev.path = "/subscribe" then
    subscribe env s ev.body freshToken now
  else if ev.httpMethod = "GET" ∧ ev.path = "/unsubscribe" then
    unsubscribe env s ev.queryStringParameters now
  else if ev.httpMethod = "GET" ∧ ev.path = "/verify" then
    verify env s ev.queryStringParameters now
  else ⟨resp 405 "Method not allowed", s, []⟩

/-! Concrete fixtures used by witnesses and counterexamples. -/

/-- A pending (unverified) subscriber record. -/
def recA : UserRecord := ⟨"a@x.com", "tok1", false, "t0", "t0"⟩

/-- A store holding only `recA`. -/
def storeA : Store := put_item emptyStore recA

/-- A verified subscriber record. -/
def recAv : UserRecord := ⟨"a@x.com", "tok1", true, "t0", "t0"⟩

/-- A store holding only `recAv`. -/
def storeAv : Store := put_item emptyStore recAv

/-- Claim C1: for a request whose email has no stored record and one whose
record's stored token differs from the supplied token, `verify` returns the
same 400 status and byte-identical body in both cases, and likewise
`unsubscribe`. -/
theorem C1_uniform_failure (env : Env) (s1 s2 : Store) (e t now : String)
    (u : UserRecord)
    (hg : env.getFails = false) (he : e.isEmpty = false)
    (ht : t.isEmpty = false)
    (h1 : get_user s1 e = none) (h2 : get_user s2 e = some u)
    (hne : u.token ≠ t) :
    (verify env s1 (some ⟨some e, some t⟩) now).response
        = resp 400 "User verification failed" ∧
    (verify env s2 (some ⟨some e, some t⟩) now).response
        = resp 400 "User verification failed" ∧
    (unsubscribe env s1 (some ⟨some e, some t⟩) now).response
        = resp 400 "Failed to unsubscribe" ∧
    (unsubscribe env s2 (some ⟨some e, some t⟩) now).response
        = resp 400 "Failed to unsubscribe" := by
  refine ⟨?_, ?_, ?_, ?_⟩ <;>
    simp [verify, unsubscribe, h1, h2, hg, he, ht, hne]

/-- Witness for C1 at a concrete pair of stores: the empty store versus a
store holding `recA`, queried with a token that matches neither. -/
theorem C1_uniform_failure_witness :
    (verify okEnv emptyStore (some ⟨some "a@x.com", some "bad"⟩) "n").response
        = resp 400 "User verification failed" ∧
    (verify okEnv storeA (some ⟨some "a@x.com", some "bad"⟩) "n").response
        = resp 400 "User verification failed" ∧
    (unsubscribe okEnv emptyStore (some ⟨some "a@x.com", some "bad"⟩) "n").response
        = resp 400 "Failed to unsubscribe" ∧
    (unsubscribe okEnv storeA (some ⟨some "a@x.com", some "bad"⟩) "n").response
        = resp 400 "Failed to unsubscribe" :=
  C1_uniform_failure okEnv emptyStore storeA "a@x.com" "bad" "n" recA
    rfl rfl rfl rfl (by decide) (by decide)

/-- Claim C6: a subscribe call for an email whose stored record is verified
returns 400 "User already subscribed", leaves the store untouched and sends
no email. -/
theorem C6_already_subscribed (env : Env) (s : Store) (e tok now : String)
    (u : UserRecord)
    (hg : env.getFails = false) (he : e.isEmpty = false)
    (hu : get_user s e = some u) (hv : u.verified = true) :
    subscribe env s (some (some e)) tok now
      = ⟨resp 400 "User already subscribed", s, []⟩ := by
  simp [subscribe, he, hg, hu, hv]

/-- Witness for C6: subscribing the already-verified `recAv`. -/
theorem C6_already_subscribed_witness :
    subscribe okEnv storeAv (some (some "a@x.com")) "tok2" "t1"
      = ⟨resp 400 "User already subscribed", storeAv, []⟩ :=
  C6_already_subscribed okEnv storeAv "a@x.com" "tok2" "t1" recAv
    rfl rfl (by decide) rfl

/-- Claim C7: `lambda_handler` routes POST /subscribe to `subscribe`,
GET /verify to `verify`, GET /unsubscribe to `unsubscribe`, and every other
method+path combination to a 405 "Method not allowed" response with the
store untouched and no email sent. -/
theorem C7_dispatch (env : Env) (s : Store) (ev : Event) (tok now : String) :
    (ev.httpMethod = "POST" ∧ ev.path = "/subscribe" →
        lambda_handler env s ev tok now = subscribe env s ev.body tok now) ∧
    (ev.httpMethod = "GET" ∧ ev.path = "/verify" →
        lambda_handler env s ev tok now
          = verify env s ev.queryStringParameters now) ∧
    (ev.httpMethod = "GET" ∧ ev.path = "/unsubscribe" →
        lambda_handler env s ev tok now
          = unsubscribe env s ev.queryStringParameters now) ∧
    (¬ (ev.httpMethod = "POST" ∧ ev.path = "/subscribe") →
      ¬ (ev.httpMethod = "GET" ∧ ev.path = "/verify") →
      ¬ (ev.httpMethod = "GET" ∧ ev.path = "/unsubscribe") →
        lambda_handler env s ev tok now
          = ⟨resp 405 "Method not allowed", s, []⟩) := by
  refine ⟨?_, ?_, ?_, ?_⟩
  · rintro ⟨h1, h2⟩
    simp [lambda_handler, h1, h2]
  · rintro ⟨h1, h2⟩
    simp [lambda_handler, h1, h2]
  · rintro ⟨h1, h2⟩
    simp [lambda_handler, h1, h2]
  · intro h1 h2 h3
    unfold lambda_handler
    rw [if_neg h1, if_neg h3, if_neg h2]

/-- Witness for C7: a DELETE request to an unknown path is answered 405. -/
theorem C7_dispatch_witness :
    lambda_handler okEnv storeA ⟨"DELETE", "/x", none, none⟩ "tok" "n"
      = ⟨resp 405 "Method not allowed", storeA, []⟩ :=
  (C7_dispatch okEnv storeA ⟨"DELETE", "/x", none, none⟩ "tok" "n").2.2.2
    (by decide) (by decide) (by decide)

/-- Claim C8: a verify or unsubscribe event whose queryStringParameters
entry is absent or null yields the 500 "Internal server error" response
(the Python raises inside the try block), in contrast to the 400
"Email and token are required" answer given when the map is present but the
email or token key is missing. -/
theorem C8_missing_query_map_500 (env : Env) (s : Store) (now : String) :
    verify env s none now = ⟨serverError, s, []⟩ ∧
    unsubscribe env s none now = ⟨serverError, s, []⟩ ∧
    verify env s (some ⟨none, none⟩) now
      = ⟨resp 400 "Email and token are required", s, []⟩ ∧
    unsubscribe env s (some ⟨none, none⟩) now
      = ⟨resp 400 "Email and token are required", s, []⟩ :=
  ⟨rfl, rfl, rfl, rfl⟩

/-- Claim C2 counterexample: unsubscribe does not invalidate the token.
After a successful unsubscribe of the verified record `recAv` with its
token "tok1", a verify call supplying the same old token succeeds with
200, contradicting the claim that the old token no longer verifies. -/
theorem C2_counterexample :
    (unsubscribe okEnv storeAv
        (some ⟨some "a@x.com", some "tok1"⟩) "t1").response.statusCode = 200 ∧
    (verify okEnv
        (unsubscribe okEnv storeAv (some ⟨some "a@x.com", some "tok1"⟩) "t1").store
        (some ⟨some "a@x.com", some "tok1"⟩) "t2").response
      = resp 200 "User verified successfully" := by
  decide

/-- Claim C2 amended: a successful unsubscribe leaves the record's token
unchanged, so the old token remains a valid credential (a subsequent verify
with it succeeds); the token is regenerated only by a later subscribe call,
which stores a fresh token. -/
theorem C2_amended_token_survives_unsubscribe (s : Store)
    (e t now now2 t2 n3 : String) (u : UserRecord)
    (hem : u.email = e) (he : e.isEmpty = false) (ht : t.isEmpty = false)
    (hu : get_user s e = some u) (htk : u.token = t) :
    (unsubscribe okEnv s (some ⟨some e, some t⟩) now).response
        = resp 200 "You are successfully unsubscribed" ∧
    get_user (unsubscribe okEnv s (some ⟨some e, some t⟩) now).store e
        = some { u with verified := false, updated_at := now } ∧
    (verify okEnv (unsubscribe okEnv s (some ⟨some e, some t⟩) now).store
        (some ⟨some e, some t⟩) now2).response
        = resp 200 "User verified successfully" ∧
    get_user (subscribe okEnv
        (unsubscribe okEnv s (some ⟨some e, some t⟩) now).store
        (some (some e)) t2 n3).store e
        = some ⟨e, t2, false, n3, n3⟩ := by
  subst htk
  have hs' : (unsubscribe okEnv s (some ⟨some e, some u.token⟩) now).store
      = put_item s { u with verified := false, updated_at := now } := by
    simp [unsubscribe, he, ht, hu, okEnv]
  have hg' : get_user (put_item s { u with verified := false, updated_at := now }) e
      = some { u with verified := false, updated_at := now } := by
    simp [get_user, put_item, hem]
  refine ⟨?_, ?_, ?_, ?_⟩
  · simp [unsubscribe, he, ht, hu, okEnv]
  · rw [hs']
    exact hg'
  · rw [hs']
    simp [verify, he, ht, hg', okEnv]
  · rw [hs']
    simp [subscribe, he, hg', okEnv, subscribeFresh, get_user, put_item, hem]

/-- Witness for the amended C2 on the concrete verified record `recAv`. -/
theorem C2_amended_token_survives_unsubscribe_witness :
    (unsubscribe okEnv storeAv (some ⟨some "a@x.com", some "tok1"⟩) "t1").response
        = resp 200 "You are successfully unsubscribed" ∧
    get_user (unsubscribe okEnv storeAv (some ⟨some "a@x.com", some "tok1"⟩) "t1").store
        "a@x.com"
        = some { recAv with verified := false, updated_at := "t1" } ∧
    (verify okEnv (unsubscribe okEnv storeAv (some ⟨some "a@x.com", some "tok1"⟩) "t1").store
        (some ⟨some "a@x.com", some "tok1"⟩) "t2").response
        = resp 200 "User verified successfully" ∧
    get_user (subscribe okEnv
        (unsubscribe okEnv storeAv (some ⟨some "a@x.com", some "tok1"⟩) "t1").store
        (some (some "a@x.com")) "tok2" "t3").store "a@x.com"
        = some ⟨"a@x.com", "tok2", false, "t3", "t3"⟩ :=
  C2_amended_token_survives_unsubscribe storeAv "a@x.com" "tok1" "t1" "t2"
    "tok2" "t3" recAv rfl rfl rfl (by decide) rfl

/-- Claim C3 counterexample: verify persists before it notifies. With a
failing email sender, verify of the pending record `recA` with its correct
token returns 500, yet the stored record has already been flipped to
verified — a persisted change alongside a 500 response. -/
theorem C3_counterexample :
    (verify ⟨false, false, true⟩ storeA
        (some ⟨some "a@x.com", some "tok1"⟩) "t1").response = serverError ∧
    get_user (verify ⟨false, false, true⟩ storeA
        (some ⟨some "a@x.com", some "tok1"⟩) "t1").store "a@x.com"
      = some ⟨"a@x.com", "tok1", true, "t0", "t1"⟩ ∧
    get_user storeA "a@x.com" = some recA ∧
    recA.verified = false := by
  decide

/-- Claim C3 amended: unsubscribe is atomic — it either returns 200 or
leaves the store unchanged, whatever fails.  Verify is atomic only up to
the persist step: when the sender does not fail, it either returns 200 or
leaves the store unchanged; a sender (or template) failure occurs after
`put_item`, so it returns 500 with the verified state already persisted. -/
theorem C3_amended_atomicity (env : Env) (s : Store) (qp : Option QueryParams)
    (now : String) :
    ((unsubscribe env s qp now).response.statusCode = 200 ∨
      (unsubscribe env s qp now).store = s) ∧
    (env.sendFails = false →
      (verify env s qp now).response.statusCode = 200 ∨
        (verify env s qp now).store = s) := by
  constructor
  · rcases qp with _ | ⟨oe, ot⟩
    · exact Or.inr rfl
    rcases oe with _ | e
    · exact Or.inr rfl
    rcases ot with _ | t
    · exact Or.inr rfl
    unfold unsubscribe
    dsimp only
    repeat' split
    all_goals first
      | exact Or.inr rfl
      | exact Or.inl rfl
  · intro hs
    rcases qp with _ | ⟨oe, ot⟩
    · exact Or.inr rfl
    rcases oe with _ | e
    · exact Or.inr rfl
    rcases ot with _ | t
    · exact Or.inr rfl
    unfold verify
    dsimp only
    repeat' split
    all_goals first
      | exact Or.inr rfl
      | exact Or.inl rfl
      | simp_all

/-- Witness for the amended C3 at a concrete store and request. -/
theorem C3_amended_atomicity_witness :
    ((unsubscribe okEnv storeA
        (some ⟨some "a@x.com", some "tok1"⟩) "t1").response.statusCode = 200 ∨
      (unsubscribe okEnv storeA
        (some ⟨some "a@x.com", some "tok1"⟩) "t1").store = storeA) ∧
    (okEnv.sendFails = false →
      (verify okEnv storeA
          (some ⟨some "a@x.com", some "tok1"⟩) "t1").response.statusCode = 200 ∨
        (verify okEnv storeA
          (some ⟨some "a@x.com", some "tok1"⟩) "t1").store = storeA) :=
  C3_amended_atomicity okEnv storeA (some ⟨some "a@x.com", some "tok1"⟩) "t1"

/-- Claim C4: with a matching token, verify is idempotent — both the first
and a second identical call return 200 "User verified successfully" and
leave the record verified, since the guard checks only the token. -/
theorem C4_verify_idempotent (s : Store) (e t n1 n2 : String) (u : UserRecord)
    (hem : u.email = e) (he : e.isEmpty = false) (ht : t.isEmpty = false)
    (hu : get_user s e = some u) (htk : u.token = t) :
    (verify okEnv s (some ⟨some e, some t⟩) n1).response
        = resp 200 "User verified successfully" ∧
    (get_user (verify okEnv s (some ⟨some e, some t⟩) n1).store e).map
        UserRecord.verified = some true ∧
    (verify okEnv (verify okEnv s (some ⟨some e, some t⟩) n1).store
        (some ⟨some e, some t⟩) n2).response
        = resp 200 "User verified successfully" ∧
    (get_user (verify okEnv (verify okEnv s (some ⟨some e, some t⟩) n1).store
        (some ⟨some e, some t⟩) n2).store e).map UserRecord.verified
        = some true := by
  subst htk
  have hs1 : (verify okEnv s (some ⟨some e, some u.token⟩) n1).store
      = put_item s { u with verified := true, updated_at := n1 } := by
    simp [verify, he, ht, hu, okEnv]
  have hg1 : get_user (put_item s { u with verified := true, updated_at := n1 }) e
      = some { u with verified := true, updated_at := n1 } := by
    simp [get_user, put_item, hem]
  refine ⟨?_, ?_, ?_, ?_⟩
  · simp [verify, he, ht, hu, okEnv]
  · rw [hs1, hg1]
    rfl
  · rw [hs1]
    simp [verify, he, ht, hg1, okEnv]
  · rw [hs1]
    have hs2 : (verify okEnv (put_item s { u with verified := true, updated_at := n1 })
          (some ⟨some e, some u.token⟩) n2).store
        = put_item (put_item s { u with verified := true, updated_at := n1 })
            { u with verified := true, updated_at := n2 } := by
      simp [verify, he, ht, hg1, okEnv]
    rw [hs2]
    simp [get_user, put_item, hem]

/-- Witness for C4: verifying the pending record `recA` twice with its
stored token "tok1". -/
theorem C4_verify_idempotent_witness :
    (verify okEnv storeA (some ⟨some "a@x.com", some "tok1"⟩) "n1").response
        = resp 200 "User verified successfully" ∧
    (get_user (verify okEnv storeA (some ⟨some "a@x.com", some "tok1"⟩) "n1").store
        "a@x.com").map UserRecord.verified = some true ∧
    (verify okEnv (verify okEnv storeA (some ⟨some "a@x.com", some "tok1"⟩) "n1").store
        (some ⟨some "a@x.com", some "tok1"⟩) "n2").response
        = resp 200 "User verified successfully" ∧
    (get_user (verify okEnv (verify okEnv storeA (some ⟨some "a@x.com", some "tok1"⟩) "n1").store
        (some ⟨some "a@x.com", some "tok1"⟩) "n2").store "a@x.com").map
        UserRecord.verified = some true :=
  C4_verify_idempotent storeA "a@x.com" "tok1" "n1" "n2" recA
    rfl rfl rfl (by decide) rfl

/-- Claim C5: subscribing an email and subscribing it again before
verification rotates the token — the store holds the second token, verify
with the first token fails 400, verify with the second succeeds 200. -/
theorem C5_token_rotation (s : Store) (e t1 t2 n1 n2 n3 n4 : String)
    (he : e.isEmpty = false) (ht1 : t1.isEmpty = false)
    (ht2 : t2.isEmpty = false) (hne : t1 ≠ t2)
    (hnv : ∀ u, get_user s e = some u → u.verified = false) :
    (get_user (subscribe okEnv (subscribe okEnv s (some (some e)) t1 n1).store
        (some (some e)) t2 n2).store e).map UserRecord.token = some t2 ∧
    (verify okEnv (subscribe okEnv (subscribe okEnv s (some (some e)) t1 n1).store
        (some (some e)) t2 n2).store (some ⟨some e, some t1⟩) n3).response
        = resp 400 "User verification failed" ∧
    (verify okEnv (subscribe okEnv (subscribe okEnv s (some (some e)) t1 n1).store
        (some (some e)) t2 n2).store (some ⟨some e, some t2⟩) n4).response
        = resp 200 "User verified successfully" := by
  have h1 : (subscribe okEnv s (some (some e)) t1 n1).store
      = put_item s ⟨e, t1, false, n1, n1⟩ := by
    rcases hgu : get_user s e with _ | u
    · simp [subscribe, he, hgu, subscribeFresh, okEnv]
    · have hv := hnv u hgu
      simp [subscribe, he, hgu, hv, subscribeFresh, okEnv]
  have hg1 : get_user (put_item s ⟨e, t1, false, n1, n1⟩) e
      = some ⟨e, t1, false, n1, n1⟩ := by
    simp [get_user, put_item]
  have h2 : (subscribe okEnv (put_item s ⟨e, t1, false, n1, n1⟩)
        (some (some e)) t2 n2).store
      = put_item (put_item s ⟨e, t1, false, n1, n1⟩) ⟨e, t2, false, n2, n2⟩ := by
    simp [subscribe, he, hg1, subscribeFresh, okEnv]
  have hg2 : get_user (put_item (put_item s ⟨e, t1, false, n1, n1⟩)
        ⟨e, t2, false, n2, n2⟩) e = some ⟨e, t2, false, n2, n2⟩ := by
    simp [get_user, put_item]
  refine ⟨?_, ?_, ?_⟩
  · rw [h1, h2, hg2]
    rfl
  · rw [h1, h2]
    simp [verify, he, ht1, hg2, okEnv, Ne.symm hne]
  · rw [h1, h2]
    simp [verify, he, ht2, hg2, okEnv]

/-- Witness for C5: double-subscribe of a fresh address with tokens "tok1"
then "tok2". -/
theorem C5_token_rotation_witness :
    (get_user (subscribe okEnv (subscribe okEnv emptyStore
        (some (some "a@x.com")) "tok1" "n1").store
        (some (some "a@x.com")) "tok2" "n2").store "a@x.com").map
        UserRecord.token = some "tok2" ∧
    (verify okEnv (subscribe okEnv (subscribe okEnv emptyStore
        (some (some "a@x.com")) "tok1" "n1").store
        (some (some "a@x.com")) "tok2" "n2").store
        (some ⟨some "a@x.com", some "tok1"⟩) "n3").response
        = resp 400 "User verification failed" ∧
    (verify okEnv (subscribe okEnv (subscribe okEnv emptyStore
        (some (some "a@x.com")) "tok1" "n1").store
        (some (some "a@x.com")) "tok2" "n2").store
        (some ⟨some "a@x.com", some "tok2"⟩) "n4").response
        = resp 200 "User verified successfully" :=
  C5_token_rotation emptyStore "a@x.com" "tok1" "tok2" "n1" "n2" "n3" "n4"
    rfl rfl rfl (by decide) (fun _ h => Option.noConfusion h)

/-- Claim C9: a successful unsubscribe changes only the verified flag (to
false) and updated_at; email, token and created_at keep their values, every
other key of the store is untouched, and the old token is still the stored
credential. -/
theorem C9_unsubscribe_frame (env : Env) (s : Store) (e t now : String)
    (u : UserRecord) (hem : u.email = e)
    (hg : env.getFails = false) (hp : env.putFails = false)
    (he : e.isEmpty = false) (ht : t.isEmpty = false)
    (hu : get_user s e = some u) (htk : u.token = t) :
    (unsubscribe env s (some ⟨some e, some t⟩) now).response
        = resp 200 "You are successfully unsubscribed" ∧
    get_user (unsubscribe env s (some ⟨some e, some t⟩) now).store e
        = some { u with verified := false, updated_at := now } ∧
    ∀ e2, e2 ≠ e →
      get_user (unsubscribe env s (some ⟨some e, some t⟩) now).store e2
        = get_user s e2 := by
  subst htk
  have hs' : (unsubscribe env s (some ⟨some e, some u.token⟩) now).store
      = put_item s { u with verified := false, updated_at := now } := by
    simp [unsubscribe, he, ht, hu, hg, hp]
  refine ⟨?_, ?_, ?_⟩
  · simp [unsubscribe, he, ht, hu, hg, hp]
  · rw [hs']
    simp [get_user, put_item, hem]
  · intro e2 hne2
    rw [hs']
    simp [get_user, put_item, hem, hne2]

/-- Witness for C9: unsubscribing `recAv` mutates only its record and only
the verified/updated_at fields; an unrelated key is untouched. -/
theorem C9_unsubscribe_frame_witness :
    (unsubscribe okEnv storeAv (some ⟨some "a@x.com", some "tok1"⟩) "t1").response
        = resp 200 "You are successfully unsubscribed" ∧
    get_user (unsubscribe okEnv storeAv
        (some ⟨some "a@x.com", some "tok1"⟩) "t1").store "a@x.com"
        = some { recAv with verified := false, updated_at := "t1" } ∧
    get_user (unsubscribe okEnv storeAv
        (some ⟨some "a@x.com", some "tok1"⟩) "t1").store "b@x.com"
        = get_user storeAv "b@x.com" := by
  obtain ⟨h1, h2, h3⟩ := C9_unsubscribe_frame okEnv storeAv "a@x.com" "tok1"
    "t1" recAv rfl rfl rfl rfl rfl (by decide) rfl
  exact ⟨h1, h2, h3 "b@x.com" (by decide)⟩

/-- Claim C10: subscribe never validates the email's format — any non-empty
string passes the input check and, with collaborators succeeding and no
verified record present, a Pending record keyed by that string is created
and 200 is returned with the verification email sent. -/
theorem C10_no_email_format_validation (s : Store) (e tok now : String)
    (he : e.isEmpty = false)
    (hnv : ∀ u, get_user s e = some u → u.verified = false) :
    (subscribe okEnv s (some (some e)) tok now).response
        = resp 200 "User subscribed successfully" ∧
    get_user (subscribe okEnv s (some (some e)) tok now).store e
        = some ⟨e, tok, false, now, now⟩ ∧
    (subscribe okEnv s (some (some e)) tok now).sent
        = [⟨e, "Verify your email"⟩] := by
  rcases hgu : get_user s e with _ | u
  · have hres : subscribe okEnv s (some (some e)) tok now
        = ⟨resp 200 "User subscribed successfully",
           put_item s ⟨e, tok, false, now, now⟩, [⟨e, "Verify your email"⟩]⟩ := by
      simp [subscribe, he, hgu, subscribeFresh, okEnv]
    rw [hres]
    refine ⟨rfl, ?_, rfl⟩
    simp [get_user, put_item]
  · have hv := hnv u hgu
    have hres : subscribe okEnv s (some (some e)) tok now
        = ⟨resp 200 "User subscribed successfully",
           put_item s ⟨e, tok, false, now, now⟩, [⟨e, "Verify your email"⟩]⟩ := by
      simp [subscribe, he, hgu, hv, subscribeFresh, okEnv]
    rw [hres]
    refine ⟨rfl, ?_, rfl⟩
    simp [get_user, put_item]

/-- Witness for C10: a string that is plainly not an email address is
accepted and stored verbatim as the key. -/
theorem C10_no_email_format_validation_witness :
    (subscribe okEnv emptyStore
        (some (some "definitely not an email address")) "tok1" "n1").response
        = resp 200 "User subscribed successfully" ∧
    get_user (subscribe okEnv emptyStore
        (some (some "definitely not an email address")) "tok1" "n1").store
        "definitely not an email address"
        = some ⟨"definitely not an email address", "tok1", false, "n1", "n1"⟩ ∧
    (subscribe okEnv emptyStore
        (some (some "definitely not an email address")) "tok1" "n1").sent
        = [⟨"definitely not an email address", "Verify your email"⟩] :=
  C10_no_email_format_validation emptyStore "definitely not an email address"
    "tok1" "n1" rfl (fun _ h => Option.noConfusion h)

end Mailblog
